import Mathlib

/-!
Shallow embedding of the query/authorization core of the Morty CMS REST API
(a Node/Hapi/PostgreSQL backend).  The relational store is modelled as lists
of rows in insertion order (so `result.rows[0]` of a query is the first
list element satisfying the query's WHERE predicate); each service function
is translated from the corresponding JavaScript function, with the SQL
statement it issues interpreted over those lists.  Fallible operations
(JavaScript `throw new Error(msg)`) are modelled as `Except String` with
the thrown message as the error value.  Timestamps are integers
(milliseconds since the epoch); SQL `NULL` is `Option.none`.
-/

/-- Decidable equality for `Except`, so concrete outcomes can be compared
with `decide`. -/
instance {ε α : Type} [DecidableEq ε] [DecidableEq α] :
    DecidableEq (Except ε α) := fun a b =>
  match a, b with
  | .error x, .error y =>
      if h : x = y then .isTrue (by rw [h]) else
        .isFalse (by intro hh; cases hh; exact h rfl)
  | .ok x, .ok y =>
      if h : x = y then .isTrue (by rw [h]) else
        .isFalse (by intro hh; cases hh; exact h rfl)
  | .error _, .ok _ => .isFalse (by intro hh; cases hh)
  | .ok _, .error _ => .isFalse (by intro hh; cases hh)

/-- A SQL parameter / column value, as passed to `database.query`. -/
inductive SqlValue where
  | str (s : String)
  | num (n : Int)
  | boolean (b : Bool)
  | time (t : Int)
  deriving Repr, DecidableEq

/-- Comparison used to interpret `ORDER BY` on a column: values of the same
shape compare by their natural order (`false < true` for booleans); the
heterogeneous case cannot arise for a fixed column and defaults to
`true`. -/
def SqlValue.le : SqlValue → SqlValue → Bool
  | .str a, .str b => a == b || decide (a < b)
  | .num a, .num b => decide (a ≤ b)
  | .boolean a, .boolean b => !a || b
  | .time a, .time b => decide (a ≤ b)
  | _, _ => true

/-- JavaScript truthiness of an optional string (`if (searchText)`):
`undefined`/`null` and the empty string are falsy. -/
def truthyStr : Option String → Bool
  | none => false
  | some s => s ≠ ""

/-- JavaScript truthiness of an optional number (`if (category)`):
`undefined`/`null` and `0` are falsy. -/
def truthyNum : Option Int → Bool
  | none => false
  | some n => n ≠ 0

/-- Model of JavaScript `String.prototype.toLowerCase` (used to normalize
emails before storage and lookup): lowercase every character. -/
def jsToLower (s : String) : String := ⟨s.data.map Char.toLower⟩

/-- Model of JavaScript `String.prototype.startsWith('-')` as used on the
`orderBy` option: tests the first character. -/
def startsWithDash (s : String) : Bool :=
  match s.data with
  | c :: _ => c == '-'
  | [] => false

/-- Model of JavaScript `orderBy.substr(1)`: drop the leading character. -/
def substrOne (s : String) : String := ⟨s.data.drop 1⟩

/-- Helper deciding whether `needle` occurs at the head of `hay`. -/
def charsHasPre (needle hay : List Char) : Bool :=
  match needle, hay with
  | [], _ => true
  | _ :: _, [] => false
  | n :: ns, h :: hs => n == h && charsHasPre ns hs

/-- Helper deciding whether `needle` occurs somewhere inside `hay`. -/
def charsContains (hay needle : List Char) : Bool :=
  match hay with
  | [] => needle.isEmpty
  | _ :: t => charsHasPre needle hay || charsContains t needle

/-- Interpretation of the category name filter
`(name) LIKE concat('%',(TEXT($1)),'%')`: the `name` column is `CITEXT`,
so `LIKE` compares case-insensitively; the pattern matches when the search
text occurs as a substring. -/
def likeContains (hay pattern : String) : Bool :=
  charsContains (jsToLower hay).data (jsToLower pattern).data

/-- Insertion into a list sorted by the boolean comparison `le`. -/
def insertSorted (le : α → α → Bool) (a : α) : List α → List α
  | [] => [a]
  | b :: bs => if le a b then a :: b :: bs else b :: insertSorted le a bs

/-- Interpretation of an SQL sort: a sorted permutation of the rows under
the boolean comparison `le` (insertion sort). -/
def sortRows (le : α → α → Bool) : List α → List α
  | [] => []
  | a :: as => insertSorted le a (sortRows le as)

/-- Interpretation of the `ORDER BY "col" [DESC]` clause appended by the
`search` functions: `orderBy` prefixed with `-` sorts descending on
`orderBy.substr(1)`, otherwise ascending on `orderBy`; `colVal` reads the
named column off a result row. -/
def orderRows (colVal : β → String → SqlValue) (orderBy : String)
    (rows : List β) : List β :=
  if startsWithDash orderBy then
    sortRows (fun a b => SqlValue.le (colVal b (substrOne orderBy))
      (colVal a (substrOne orderBy))) rows
  else
    sortRows (fun a b => SqlValue.le (colVal a orderBy)
      (colVal b orderBy)) rows

/-- Interpretation of the `LIMIT $i` / `OFFSET $j` clauses appended by the
`search` functions: both are appended only when truthy (so `limit: 0`,
`limit: null` and `offset: 0` leave the query unbounded / unshifted); SQL
applies the offset before the limit. -/
def applyLimitOffset (limit : Option Int) (offset : Int)
    (rows : List β) : List β :=
  if truthyNum limit then
    (if offset ≠ 0 then rows.drop offset.toNat else rows).take
      (limit.getD 0).toNat
  else
    (if offset ≠ 0 then rows.drop offset.toNat else rows)

/-- Options object shared by the `search` functions:
`{ paranoid = true, limit = null, offset = 0, orderBy = 'id' }`. -/
structure SearchOptions where
  paranoid : Bool := true
  limit : Option Int := none
  offset : Int := 0
  orderBy : String := "id"
  deriving Repr, DecidableEq

/-- One `, key = $i` (or `, "key" = $i` when `quote`) fragment of the SET
clause built by the `update` functions from a payload key and its index. -/
def setClauseFragment (quote : Bool) (i : Nat) (k : String) : String :=
  if quote then ", \"" ++ k ++ "\" = $" ++ toString (i + 1)
  else ", " ++ k ++ " = $" ++ toString (i + 1)

/-- SET clause text accumulated by
`Object.keys(update).forEach((key, index) => query += ...)`. -/
def setClause (quote : Bool) (keys : List String) : String :=
  (keys.enum.map (fun p => setClauseFragment quote p.1 p.2)).foldl
    (· ++ ·) ""

/-- Row of the `user_roles` table (`id SERIAL, name TEXT, UNIQUE (name)`). -/
structure RoleRow where
  id : Int
  name : String
  deriving Repr, DecidableEq

/-- Seed contents of `user_roles` inserted by `_init` in
`services/user.js` (`INSERT ... ON CONFLICT DO NOTHING`):
1=Admin, 2=Editor, 3=Author, 4=Commenter. -/
def defaultRoles : List RoleRow :=
  [⟨1, "Admin"⟩, ⟨2, "Editor"⟩, ⟨3, "Author"⟩, ⟨4, "Commenter"⟩]

/-- Row of the `users` table as created by `_init` in `services/user.js`:
`id SERIAL PRIMARY KEY, firstName TEXT, lastName TEXT,
email TEXT NOT NULL, password TEXT NOT NULL,
role INTEGER REFERENCES user_roles(id) DEFAULT 4,
createdAt/updatedAt TIMESTAMP DEFAULT CURRENT_TIMESTAMP,
deletedAt TIMESTAMP DEFAULT NULL, tokenBlacklistDate TIMESTAMP DEFAULT
NULL, UNIQUE (email)`. -/
structure UserRow where
  id : Int
  firstName : String
  lastName : String
  email : String
  password : String
  role : Option Int
  createdAt : Int
  updatedAt : Int
  deletedAt : Option Int
  tokenBlacklistDate : Option Int
  deriving Repr, DecidableEq

/-- State owned by the user service: the `user_roles` and `users` tables. -/
structure UsersDb where
  roles : List RoleRow
  users : List UserRow
  deriving Repr, DecidableEq

namespace AuthenticationService

/-- Token issued by `AuthenticationService.createToken(payload)` in
`services/authentication.js`: `jwt.sign` embeds the payload (here the user
id) unchanged in the signed token, so decoding recovers exactly that id. -/
structure Token where
  id : Int
  deriving Repr, DecidableEq

/-- Function `createToken({ id })` of `services/authentication.js`: signs
the payload with the configured key; the signature is the JWT library's
concern, the payload is carried verbatim. -/
def createToken (id : Int) : Token := ⟨id⟩

/-- Model of `bcrypt.hash(password, saltRounds)` from `createHash` in
`services/authentication.js`: an opaque one-way encoding.  The bcrypt
contract is that `bcrypt.compare(p, h)` succeeds exactly when `h` was
produced from `p`; an injective tagging function realises that contract. -/
def createHash (password : String) : String := "$2b$" ++ password

/-- Model of `bcrypt.compare(password, hash)` from `verifyCredentials` in
`services/authentication.js`. -/
def verifyCredentials (password hash : String) : Bool :=
  hash == createHash password

end AuthenticationService

namespace UserService

/-- WHERE predicate of the query issued by `UserService.verifyToken`:
`id = $1 AND "deletedAt" IS NULL AND ("tokenBlacklistDate" IS NULL OR
"tokenBlacklistDate" < $2)` with `$2` the token's creation instant. -/
def verifyTokenWhere (id createTime : Int) (u : UserRow) : Bool :=
  u.id == id && u.deletedAt == none &&
    (u.tokenBlacklistDate == none ||
      (match u.tokenBlacklistDate with
       | some b => b < createTime
       | none => true))

/-- Function `verifyToken({ id, createTime })` of `services/user.js`:
selects under `verifyTokenWhere`; throws `Invalid Token` when no row
matches, else resolves `true`. -/
def verifyToken (db : UsersDb) (id createTime : Int) : Except String Bool :=
  match db.users.find? (verifyTokenWhere id createTime) with
  | none => .error "Invalid Token"
  | some _ => .ok true

/-- Projection returned by `UserService.findOneById`: the selected columns
plus `user_roles.name AS role` from the `LEFT JOIN` (`role` is null when
the user's role id matches no role row). -/
structure FoundUser where
  firstName : String
  lastName : String
  email : String
  createdAt : Int
  updatedAt : Int
  deletedAt : Option Int
  role : Option String
  deriving Repr, DecidableEq

/-- WHERE predicate of the query issued by `UserService.findOneById`:
`users.id = $1` plus `AND "deletedAt" IS NULL` when paranoid. -/
def findOneByIdWhere (id : Int) (paranoid : Bool) (u : UserRow) : Bool :=
  u.id == id && (!paranoid || u.deletedAt == none)

/-- Function `findOneById(id, { paranoid })` of `services/user.js`:
`SELECT ..., user_roles.name AS role FROM users LEFT JOIN user_roles ON
users.role = user_roles.id` under `findOneByIdWhere`; yields
`result.rows[0]` or throws `No User Found`. -/
def findOneById (db : UsersDb) (id : Int) (paranoid : Bool := true) :
    Except String FoundUser :=
  match db.users.find? (findOneByIdWhere id paranoid) with
  | none => .error "No User Found"
  | some u =>
      .ok { firstName := u.firstName, lastName := u.lastName,
            email := u.email, createdAt := u.createdAt,
            updatedAt := u.updatedAt, deletedAt := u.deletedAt,
            role := (match u.role with
                     | none => none
                     | some r => (db.roles.find? fun rr => rr.id == r).map
                         RoleRow.name) }

/-- WHERE predicate of the query issued by `UserService.login`:
`"deletedAt" IS NULL AND email = $1` with `$1` the lowercased email. -/
def loginWhere (email : String) (u : UserRow) : Bool :=
  u.deletedAt == none && u.email == jsToLower email

/-- Function `login({ email, password })` of `services/user.js`: selects
`id, password` under `loginWhere` (email lowercased); throws
`Invalid Credentials` when no row matches or when the password fails
`bcrypt.compare`; otherwise issues a token for the found user's id. -/
def login (db : UsersDb) (email password : String) :
    Except String AuthenticationService.Token :=
  match db.users.find? (loginWhere email) with
  | none => .error "Invalid Credentials"
  | some u =>
      if AuthenticationService.verifyCredentials password u.password then
        .ok (AuthenticationService.createToken u.id)
      else
        .error "Invalid Credentials"

/-- Id assigned by the `SERIAL` column to the next inserted user row. -/
def nextUserId (db : UsersDb) : Int :=
  (db.users.foldl (fun m u => max m u.id) 0) + 1

/-- Function `register({ email, firstName, lastName, password })` of
`services/user.js`: hashes the password, executes
`INSERT INTO users("firstName", "lastName", email, password)
VALUES($1, $2, $3, $4)` with the email lowercased (the remaining columns
take their schema defaults: `role` 4, timestamps now, null `deletedAt`
and `tokenBlacklistDate`), then logs the user in.  A duplicate email
violates `UNIQUE (email)` and surfaces as the store's `23505` error. -/
def register (db : UsersDb) (now : Int)
    (email firstName lastName password : String) :
    Except String (UsersDb × AuthenticationService.Token) :=
  if db.users.any (fun u => u.email == jsToLower email) then
    .error "23505"
  else
    match login { db with users := db.users ++
        [{ id := nextUserId db, firstName := firstName,
           lastName := lastName, email := jsToLower email,
           password := AuthenticationService.createHash password,
           role := some 4, createdAt := now, updatedAt := now,
           deletedAt := none, tokenBlacklistDate := none }] }
        email password with
    | .error e => .error e
    | .ok t =>
        .ok ({ db with users := db.users ++
            [{ id := nextUserId db, firstName := firstName,
               lastName := lastName, email := jsToLower email,
               password := AuthenticationService.createHash password,
               role := some 4, createdAt := now, updatedAt := now,
               deletedAt := none, tokenBlacklistDate := none }] }, t)

/-- Payload preprocessing done by `UserService.update` before building the
query: `if (update.password) update.password = await createHash(...)` and
`if (update.email) update.email = update.email.toLowerCase()` (both
guarded by JavaScript truthiness of the current value). -/
def hashAndNormalize (kvs : List (String × SqlValue)) :
    List (String × SqlValue) :=
  kvs.map fun kv =>
    match kv with
    | ("password", SqlValue.str v) =>
        if v ≠ "" then
          ("password", SqlValue.str (AuthenticationService.createHash v))
        else kv
    | ("email", SqlValue.str v) =>
        if v ≠ "" then ("email", SqlValue.str (jsToLower v)) else kv
    | _ => kv

/-- Query text built by `UserService.update`:
`'UPDATE users SET "updatedAt" = CURRENT_TIMESTAMP'`, then
`, ${key} = $${index + 1}` for each payload key (unquoted interpolation of
the key into the statement), then `WHERE id = $n`. -/
def updateQuery (kvs : List (String × SqlValue)) : String :=
  "UPDATE users SET \"updatedAt\" = CURRENT_TIMESTAMP" ++
    setClause false (kvs.map Prod.fst) ++
    (" WHERE id = $" ++ toString (kvs.length + 1))

/-- Row-level effect of one `key = value` assignment of the generated
UPDATE statement, for the columns a payload can name.  A key that names no
column of the table is listed nowhere here and leaves the row unchanged;
what the store actually receives for such a key is the raw interpolated
query text, which `updateQuery` models. -/
def applyUserAssignment (u : UserRow) : String × SqlValue → UserRow
  | ("firstName", .str v) => { u with firstName := v }
  | ("lastName", .str v) => { u with lastName := v }
  | ("email", .str v) => { u with email := v }
  | ("password", .str v) => { u with password := v }
  | ("role", .num v) => { u with role := some v }
  | ("id", .num v) => { u with id := v }
  | ("createdAt", .time t) => { u with createdAt := t }
  | ("updatedAt", .time t) => { u with updatedAt := t }
  | ("deletedAt", .time t) => { u with deletedAt := some t }
  | ("tokenBlacklistDate", .time t) => { u with tokenBlacklistDate := some t }
  | _ => u

/-- Function `update(id, payload)` of `services/user.js`: rejects a falsy
(absent/null) payload with `Invalid Update Payload Provided`; otherwise
hashes/normalizes the payload, executes the UPDATE built by `updateQuery`
(which always bumps `"updatedAt"` and assigns every payload key) against
the rows matching `id`, and throws `No Records Updated` when
`result.rowCount === 0`.  Returns the new table state and the executed
query text. -/
def update (db : UsersDb) (now : Int) (id : Int)
    (payload : Option (List (String × SqlValue))) :
    Except String (UsersDb × String) :=
  match payload with
  | none => .error "Invalid Update Payload Provided"
  | some kvs =>
      if db.users.countP (fun u => u.id == id) == 0 then
        .error "No Records Updated"
      else
        .ok ({ db with users := db.users.map (fun u =>
                 if u.id == id then
                   (hashAndNormalize kvs).foldl applyUserAssignment
                     ({ u with updatedAt := now })
                 else u) },
             updateQuery (hashAndNormalize kvs))

/-- Modelled from the spec: `UserService.softDelete` is invoked by the
`DELETE /users/{id}` route handler in `routes/users.js`, but its
definition is not among the provided sources.  Spec §4.4 specifies
`softDelete(id) -> success`: equivalent to `update(id, {deletedAt: now})`,
which is also exactly how the category and post services implement it. -/
def softDelete (db : UsersDb) (now : Int) (id : Int) :
    Except String (UsersDb × Bool) :=
  match update db now id (some [("deletedAt", SqlValue.time now)]) with
  | .error e => .error e
  | .ok r => .ok (r.1, true)

end UserService

namespace AuthenticationService

/-- Claim set of a decoded JWT as handed to `validateToken` by the
hapi-auth-jwt2 strategy: the signed payload's `id` plus the `iat`
(issued-at, in seconds) stamp added by `jwt.sign`. -/
structure DecodedToken where
  id : Int
  iat : Int
  deriving Repr, DecidableEq

/-- Function `validateToken(decoded)` of `services/authentication.js`:
computes `createTime = new Date(decoded.iat * 1000)`, calls
`UserService.verifyToken({ id: decoded.id, createTime })`, and maps
success to `{ isValid: true }` and any thrown error to
`{ isValid: false }`. -/
def validateToken (db : UsersDb) (decoded : DecodedToken) : Bool :=
  match UserService.verifyToken db decoded.id (decoded.iat * 1000) with
  | .ok _ => true
  | .error _ => false

/-- Function `hasAdminPermissions(id)` of `services/authentication.js`:
awaits `UserService.findOneById(id)` (paranoid by default) and returns
`user.role === 'Admin'`.  There is no catch: a lookup failure propagates
as a rejection. -/
def hasAdminPermissions (db : UsersDb) (id : Int) : Except String Bool :=
  match UserService.findOneById db id with
  | .error e => .error e
  | .ok user => .ok (user.role == some "Admin")

/-- Function `hasEditorPermissions(id)` of `services/authentication.js`:
`user.role === 'Editor' || user.role === 'Admin'`, lookup failures
propagating as for `hasAdminPermissions`. -/
def hasEditorPermissions (db : UsersDb) (id : Int) : Except String Bool :=
  match UserService.findOneById db id with
  | .error e => .error e
  | .ok user => .ok (user.role == some "Editor" || user.role == some "Admin")

/-- Function `hasAuthorPermissions(id)` of `services/authentication.js`:
`user.role === 'Author' || user.role === 'Editor' ||
user.role === 'Admin'`, lookup failures propagating. -/
def hasAuthorPermissions (db : UsersDb) (id : Int) : Except String Bool :=
  match UserService.findOneById db id with
  | .error e => .error e
  | .ok user => .ok (user.role == some "Author" ||
      user.role == some "Editor" || user.role == some "Admin")

end AuthenticationService

/-- Row of the `categories` table (`services/category.js`):
`id SERIAL PRIMARY KEY, name CITEXT NOT NULL,
description TEXT DEFAULT NULL, createdAt/updatedAt TIMESTAMP DEFAULT
CURRENT_TIMESTAMP, deletedAt TIMESTAMP DEFAULT NULL, UNIQUE (name)`. -/
structure CategoryRow where
  id : Int
  name : String
  description : Option String
  createdAt : Int
  updatedAt : Int
  deletedAt : Option Int
  deriving Repr, DecidableEq

/-- Projection `SELECT id, name, description` returned by the category
service's read queries. -/
structure CategoryView where
  id : Int
  name : String
  description : Option String
  deriving Repr, DecidableEq

namespace CategoryService

/-- Projection of a category row to the selected columns. -/
def toView (c : CategoryRow) : CategoryView :=
  { id := c.id, name := c.name, description := c.description }

/-- Value of a named column of a category result row, as needed by
`ORDER BY`; the route layer whitelists `id`, `name` and `description`
(reading any other name is the documented trust boundary and defaults to
the id column here). -/
def column (c : CategoryView) : String → SqlValue
  | "name" => .str c.name
  | "description" => .str (c.description.getD "")
  | _ => .num c.id

/-- WHERE predicate built by `CategoryService.search`: the
`(name) LIKE concat('%',(TEXT($1)),'%')` clause when `searchText` is
truthy, and `"deletedAt" IS NULL` when paranoid. -/
def searchWhere (searchText : Option String) (paranoid : Bool)
    (c : CategoryRow) : Bool :=
  (!truthyStr searchText || likeContains c.name (searchText.getD "")) &&
    (!paranoid || c.deletedAt == none)

/-- Function `search(searchText, options)` of `services/category.js`:
filters under `searchWhere`; `count` is taken from
`SELECT COUNT(*)` sharing the same WHERE clause, executed before
`ORDER BY` / `LIMIT` / `OFFSET` are appended; the row list then gets the
order, limit and offset applied.  Returns `{ categories, count }`. -/
def search (db : List CategoryRow) (searchText : Option String)
    (o : SearchOptions) : List CategoryView × Nat :=
  (applyLimitOffset o.limit o.offset
     (orderRows column o.orderBy
        ((db.filter (searchWhere searchText o.paranoid)).map toView)),
   (db.filter (searchWhere searchText o.paranoid)).length)

/-- Query text built by `CategoryService.update`:
`'UPDATE categories SET "updatedAt" = CURRENT_TIMESTAMP'`, then
`, "${key}" = $${index + 1}` for each payload key (the key interpolated
into the statement between double quotes), then `WHERE id = $n`. -/
def updateQuery (kvs : List (String × SqlValue)) : String :=
  "UPDATE categories SET \"updatedAt\" = CURRENT_TIMESTAMP" ++
    setClause true (kvs.map Prod.fst) ++
    (" WHERE id = $" ++ toString (kvs.length + 1))

/-- Row-level effect of one `"key" = value` assignment of the generated
UPDATE statement, for the columns a payload can name; unrecognized keys
leave the row unchanged (see `updateQuery` for the raw text). -/
def applyAssignment (c : CategoryRow) : String × SqlValue → CategoryRow
  | ("name", .str v) => { c with name := v }
  | ("description", .str v) => { c with description := some v }
  | ("id", .num v) => { c with id := v }
  | ("createdAt", .time t) => { c with createdAt := t }
  | ("updatedAt", .time t) => { c with updatedAt := t }
  | ("deletedAt", .time t) => { c with deletedAt := some t }
  | _ => c

/-- Function `update(id, payload)` of `services/category.js`: rejects a
falsy payload with `Invalid Update Payload Provided`; otherwise executes
the UPDATE built by `updateQuery` (`"updatedAt"` bump plus one assignment
per payload key) on the rows matching `id` and throws
`No Records Updated` when `result.rowCount === 0`. -/
def update (db : List CategoryRow) (now : Int) (id : Int)
    (payload : Option (List (String × SqlValue))) :
    Except String (List CategoryRow × String) :=
  match payload with
  | none => .error "Invalid Update Payload Provided"
  | some kvs =>
      if db.countP (fun c => c.id == id) == 0 then
        .error "No Records Updated"
      else
        .ok (db.map (fun c =>
               if c.id == id then
                 kvs.foldl applyAssignment ({ c with updatedAt := now })
               else c),
             updateQuery kvs)

/-- Function `softDelete(id)` of `services/category.js`:
`await exports.update(id, { deletedAt: new Date() }); return true;`. -/
def softDelete (db : List CategoryRow) (now : Int) (id : Int) :
    Except String (List CategoryRow × Bool) :=
  match update db now id (some [("deletedAt", SqlValue.time now)]) with
  | .error e => .error e
  | .ok r => .ok (r.1, true)

end CategoryService

/-- Row of the `posts` table (`services/post.js`): `id SERIAL PRIMARY KEY,
author INTEGER REFERENCES users(id), title/description/content TEXT NOT
NULL, category INTEGER REFERENCES categories(id), slug CITEXT NOT NULL,
template TEXT, createdAt/updatedAt TIMESTAMP DEFAULT CURRENT_TIMESTAMP,
deletedAt TIMESTAMP DEFAULT NULL, published BOOLEAN, UNIQUE (slug)`. -/
structure PostRow where
  id : Int
  author : Option Int
  title : String
  description : String
  content : String
  category : Option Int
  slug : String
  template : String
  published : Bool
  createdAt : Int
  updatedAt : Int
  deletedAt : Option Int
  deriving Repr, DecidableEq

/-- State visible to the post service's queries: the `posts` table plus
the `categories` and `users` tables it LEFT JOINs for names. -/
structure PostsDb where
  posts : List PostRow
  categories : List CategoryRow
  users : List UserRow
  deriving Repr, DecidableEq

/-- Projection returned by the post service's read queries: the post
columns plus `"firstName" AS "authorFirstName"`,
`"lastName" AS "authorLastName"` and `categories.name AS "categoryName"`
from the LEFT JOINs (null when the join misses). -/
structure PostView where
  id : Int
  author : Option Int
  authorFirstName : Option String
  authorLastName : Option String
  title : String
  description : String
  content : String
  slug : String
  template : String
  published : Bool
  category : Option Int
  categoryName : Option String
  createdAt : Int
  updatedAt : Int
  deriving Repr, DecidableEq

namespace PostService

/-- Projection of a post row joined with `LEFT JOIN categories ON
posts.category = categories.id LEFT JOIN users ON posts.author =
users.id`. -/
def toView (db : PostsDb) (p : PostRow) : PostView :=
  { id := p.id, author := p.author,
    authorFirstName :=
      (db.users.find? fun u => some u.id == p.author).map UserRow.firstName,
    authorLastName :=
      (db.users.find? fun u => some u.id == p.author).map UserRow.lastName,
    title := p.title, description := p.description, content := p.content,
    slug := p.slug, template := p.template, published := p.published,
    category := p.category,
    categoryName :=
      (db.categories.find? fun c => some c.id == p.category).map
        CategoryRow.name,
    createdAt := p.createdAt, updatedAt := p.updatedAt }

/-- WHERE predicate built by `PostService.findOneById`: `posts.id = $1`,
plus `AND posts."deletedAt" IS NULL` when `paranoid` is truthy, plus
`AND "published" = $2` (binding the `published` argument) only when the
`published` argument is truthy. -/
def findOneByIdWhere (id : Int) (paranoid published : Bool)
    (p : PostRow) : Bool :=
  p.id == id && (!paranoid || p.deletedAt == none) &&
    (!published || p.published == published)

/-- Function `findOneById(id, { paranoid, published })` of
`services/post.js` (both options default `true`): selects the joined
projection under `findOneByIdWhere`; yields `result.rows[0]` or throws
`No Record Found`. -/
def findOneById (db : PostsDb) (id : Int) (paranoid : Bool := true)
    (published : Bool := true) : Except String PostView :=
  match db.posts.find? (findOneByIdWhere id paranoid published) with
  | none => .error "No Record Found"
  | some p => .ok (toView db p)

/-- Search parameters of `PostService.search`
(`{ searchText, template, category, published = true, author }`). -/
structure Filters where
  searchText : Option String := none
  template : Option String := none
  category : Option Int := none
  published : Bool := true
  author : Option Int := none
  deriving Repr, DecidableEq

/-- WHERE predicate built by `PostService.search`: `searchText` adds no
condition (`// TODO: Handle searchText` in the source); each remaining
filter contributes its clause only when truthy, `published` included. -/
def searchWhere (f : Filters) (paranoid : Bool) (p : PostRow) : Bool :=
  (!paranoid || p.deletedAt == none) &&
    (!truthyStr f.template || p.template == f.template.getD "") &&
    (!truthyNum f.category || p.category == f.category) &&
    (!f.published || p.published == f.published) &&
    (!truthyNum f.author || p.author == f.author)

/-- Value of a named column of a post result row, as needed by
`ORDER BY`; the route layer whitelists `id`, `authorFirstName`,
`authorLastName`, `title`, `template` and `category` (any other name is
the documented trust boundary and defaults to the id column here). -/
def column (v : PostView) : String → SqlValue
  | "authorFirstName" => .str (v.authorFirstName.getD "")
  | "authorLastName" => .str (v.authorLastName.getD "")
  | "title" => .str v.title
  | "template" => .str v.template
  | "category" => .num ((v.category).getD 0)
  | _ => .num v.id

/-- Function `search(filters, options)` of `services/post.js`: filters
the joined rows under `searchWhere`; `count` is taken from
`SELECT COUNT(*)` sharing the same WHERE clause, executed before
`ORDER BY` / `LIMIT` / `OFFSET` are appended; the row list then gets the
order, limit and offset applied.  Returns `{ posts, count }`. -/
def search (db : PostsDb) (f : Filters) (o : SearchOptions) :
    List PostView × Nat :=
  (applyLimitOffset o.limit o.offset
     (orderRows column o.orderBy
        ((db.posts.filter (searchWhere f o.paranoid)).map (toView db))),
   (db.posts.filter (searchWhere f o.paranoid)).length)

/-- Query text built by `PostService.update` (after `delete update.tags`):
`'UPDATE posts SET "updatedAt" = CURRENT_TIMESTAMP'`, then
`, "${key}" = $${index + 1}` per key, then `WHERE id = $n`. -/
def updateQuery (kvs : List (String × SqlValue)) : String :=
  "UPDATE posts SET \"updatedAt\" = CURRENT_TIMESTAMP" ++
    setClause true (kvs.map Prod.fst) ++
    (" WHERE id = $" ++ toString (kvs.length + 1))

/-- Row-level effect of one `"key" = value` assignment of the generated
UPDATE statement, for the columns a payload can name; unrecognized keys
leave the row unchanged (see `updateQuery` for the raw text). -/
def applyAssignment (p : PostRow) : String × SqlValue → PostRow
  | ("author", .num v) => { p with author := some v }
  | ("title", .str v) => { p with title := v }
  | ("description", .str v) => { p with description := v }
  | ("content", .str v) => { p with content := v }
  | ("category", .num v) => { p with category := some v }
  | ("slug", .str v) => { p with slug := v }
  | ("template", .str v) => { p with template := v }
  | ("published", .boolean b) => { p with published := b }
  | ("id", .num v) => { p with id := v }
  | ("createdAt", .time t) => { p with createdAt := t }
  | ("updatedAt", .time t) => { p with updatedAt := t }
  | ("deletedAt", .time t) => { p with deletedAt := some t }
  | _ => p

/-- Function `update(id, payload)` of `services/post.js`: rejects a falsy
payload with `Invalid Update Payload Provided`; removes the `tags` key
(`delete update.tags`); then executes the UPDATE built by `updateQuery`
on the rows matching `id` and throws `No Records Updated` when
`result.rowCount === 0`. -/
def update (db : PostsDb) (now : Int) (id : Int)
    (payload : Option (List (String × SqlValue))) :
    Except String (PostsDb × String) :=
  match payload with
  | none => .error "Invalid Update Payload Provided"
  | some kvs =>
      if db.posts.countP (fun p => p.id == id) == 0 then
        .error "No Records Updated"
      else
        .ok ({ db with posts := db.posts.map (fun p =>
                 if p.id == id then
                   (kvs.filter fun kv => kv.1 ≠ "tags").foldl
                     applyAssignment ({ p with updatedAt := now })
                 else p) },
             updateQuery (kvs.filter fun kv => kv.1 ≠ "tags"))

/-- Function `softDelete(id)` of `services/post.js`:
`await exports.update(id, { deletedAt: new Date() }); return true;`. -/
def softDelete (db : PostsDb) (now : Int) (id : Int) :
    Except String (PostsDb × Bool) :=
  match update db now id (some [("deletedAt", SqlValue.time now)]) with
  | .error e => .error e
  | .ok r => .ok (r.1, true)

end PostService

/-! ### Supporting lemmas about the query-interpretation helpers -/

theorem length_insertSorted (le : α → α → Bool) (a : α) (l : List α) :
    (insertSorted le a l).length = l.length + 1 := by
  induction l with
  | nil => rfl
  | cons b bs ih =>
      unfold insertSorted
      by_cases h : le a b = true <;> simp [h, ih]

theorem mem_insertSorted (le : α → α → Bool) (a x : α) (l : List α) :
    x ∈ insertSorted le a l ↔ x = a ∨ x ∈ l := by
  induction l with
  | nil => simp [insertSorted]
  | cons b bs ih =>
      unfold insertSorted
      by_cases h : le a b = true
      · simp [h]
      · simp [h, ih]
        tauto

theorem length_sortRows (le : α → α → Bool) (l : List α) :
    (sortRows le l).length = l.length := by
  induction l with
  | nil => rfl
  | cons a as ih => simp [sortRows, length_insertSorted, ih]

theorem mem_sortRows (le : α → α → Bool) (x : α) (l : List α) :
    x ∈ sortRows le l ↔ x ∈ l := by
  induction l with
  | nil => simp [sortRows]
  | cons a as ih => simp [sortRows, mem_insertSorted, ih]

theorem length_orderRows (colVal : β → String → SqlValue) (ob : String)
    (l : List β) : (orderRows colVal ob l).length = l.length := by
  unfold orderRows
  by_cases h : startsWithDash ob = true <;> simp [h, length_sortRows]

theorem mem_orderRows (colVal : β → String → SqlValue) (ob : String)
    (x : β) (l : List β) : x ∈ orderRows colVal ob l ↔ x ∈ l := by
  unfold orderRows
  by_cases h : startsWithDash ob = true <;> simp [h, mem_sortRows]

theorem length_applyLimitOffset (n m : Int) (hn : n ≠ 0) (l : List β) :
    (applyLimitOffset (some n) m l).length =
      min n.toNat (l.length - m.toNat) := by
  unfold applyLimitOffset
  by_cases hm : m = 0 <;> simp [truthyNum, hn, hm]

theorem mem_applyLimitOffset (lim : Option Int) (off : Int) (x : β)
    (l : List β) : x ∈ applyLimitOffset lim off l → x ∈ l := by
  unfold applyLimitOffset
  by_cases h1 : truthyNum lim = true <;>
    by_cases h2 : off = 0 <;> simp [h1, h2] <;> intro h
  · exact List.mem_of_mem_take h
  · exact List.mem_of_mem_drop (List.mem_of_mem_take h)
  · exact List.mem_of_mem_drop h

/-! ### Claim theorems -/

/-- Boolean/propositional reading of `verifyTokenWhere`. -/
theorem verifyTokenWhere_iff (id t : Int) (u : UserRow) :
    UserService.verifyTokenWhere id t u = true ↔
      u.id = id ∧ u.deletedAt = none ∧
        (u.tokenBlacklistDate = none ∨
          ∃ b, u.tokenBlacklistDate = some b ∧ b < t) := by
  unfold UserService.verifyTokenWhere
  cases h : u.tokenBlacklistDate <;> simp [h, and_assoc]

/-- C1: the token-validation path (`UserService.verifyToken` composed into
`AuthenticationService.validateToken`) reports a token valid exactly when
the subject user exists, is not soft-deleted, and either has no
`tokenBlacklistDate` or the token's creation instant
(`decoded.iat * 1000`) is strictly after it; in particular a token issued
at or before the blacklist date is reported invalid. -/
theorem validateToken_isValid_iff (db : UsersDb)
    (decoded : AuthenticationService.DecodedToken) :
    AuthenticationService.validateToken db decoded = true ↔
      ∃ u ∈ db.users, u.id = decoded.id ∧ u.deletedAt = none ∧
        (u.tokenBlacklistDate = none ∨
          ∃ b, u.tokenBlacklistDate = some b ∧ b < decoded.iat * 1000) := by
  unfold AuthenticationService.validateToken UserService.verifyToken
  rcases h : db.users.find?
      (UserService.verifyTokenWhere decoded.id (decoded.iat * 1000)) with _ | u
  · simp only [h]
    constructor
    · intro hh
      exact Bool.noConfusion hh
    · rintro ⟨u, hu, hcond⟩
      rw [List.find?_eq_none] at h
      exact absurd ((verifyTokenWhere_iff decoded.id
        (decoded.iat * 1000) u).mpr hcond) (h u hu)
  · simp only [h]
    constructor
    · intro _
      exact ⟨u, List.mem_of_find?_eq_some h,
        (verifyTokenWhere_iff decoded.id (decoded.iat * 1000) u).mp
          (List.find?_some h)⟩
    · intro _
      trivial

/-- C2: an existing, non-deleted user whose joined role name is `Author`
passes the author-tier check and fails the editor and admin tiers, while
one whose joined role name is `Admin` passes all three tiers. -/
theorem role_hierarchy_author_admin (db : UsersDb) (idA idB : Int)
    (uA uB : UserService.FoundUser)
    (hA : UserService.findOneById db idA = .ok uA)
    (hrA : uA.role = some "Author")
    (hB : UserService.findOneById db idB = .ok uB)
    (hrB : uB.role = some "Admin") :
    AuthenticationService.hasAuthorPermissions db idA = .ok true ∧
    AuthenticationService.hasEditorPermissions db idA = .ok false ∧
    AuthenticationService.hasAdminPermissions db idA = .ok false ∧
    AuthenticationService.hasAdminPermissions db idB = .ok true ∧
    AuthenticationService.hasEditorPermissions db idB = .ok true ∧
    AuthenticationService.hasAuthorPermissions db idB = .ok true := by
  unfold AuthenticationService.hasAuthorPermissions
    AuthenticationService.hasEditorPermissions
    AuthenticationService.hasAdminPermissions
  rw [hA, hB]
  simp [hrA, hrB]

/-- Shared example database: user 1 is an active `Author`, user 2 an
active `Admin`. -/
def wDb : UsersDb := ⟨defaultRoles,
  [⟨1, "f", "l", "a@x.com", "$2b$pw", some 3, 0, 0, none, none⟩,
   ⟨2, "g", "m", "b@x.com", "$2b$pw", some 1, 0, 0, none, none⟩]⟩

/-- Witness for C2 at a concrete database. -/
theorem role_hierarchy_author_admin_witness :
    AuthenticationService.hasAuthorPermissions wDb 1 = .ok true ∧
    AuthenticationService.hasEditorPermissions wDb 1 = .ok false ∧
    AuthenticationService.hasAdminPermissions wDb 1 = .ok false ∧
    AuthenticationService.hasAdminPermissions wDb 2 = .ok true ∧
    AuthenticationService.hasEditorPermissions wDb 2 = .ok true ∧
    AuthenticationService.hasAuthorPermissions wDb 2 = .ok true :=
  role_hierarchy_author_admin wDb 1 2
    ⟨"f", "l", "a@x.com", 0, 0, none, some "Author"⟩
    ⟨"g", "m", "b@x.com", 0, 0, none, some "Admin"⟩
    (by decide) rfl (by decide) rfl

/-- Example database whose only user row is soft-deleted. -/
def deletedDb : UsersDb := ⟨defaultRoles,
  [⟨1, "f", "l", "a@x.com", "$2b$pw", some 1, 0, 0, some 3, none⟩]⟩

/-- Counterexample to C3: for a user id matching no row (or only a
soft-deleted row) the permission checks reject with the propagated
`No User Found` error instead of answering `false`. -/
theorem permission_checks_raise_not_false :
    AuthenticationService.hasAdminPermissions ⟨defaultRoles, []⟩ 1 =
      .error "No User Found" ∧
    AuthenticationService.hasAdminPermissions ⟨defaultRoles, []⟩ 1 ≠ .ok false ∧
    AuthenticationService.hasEditorPermissions ⟨defaultRoles, []⟩ 1 ≠ .ok false ∧
    AuthenticationService.hasAuthorPermissions ⟨defaultRoles, []⟩ 1 ≠ .ok false ∧
    AuthenticationService.hasAdminPermissions deletedDb 1 =
      .error "No User Found" ∧
    AuthenticationService.hasAdminPermissions deletedDb 1 ≠ .ok false := by
  decide

/-- C3 amended: when a user id matches no user row, or matches only
soft-deleted rows, each permission check propagates the user lookup's
`No User Found` error (the promise rejects) rather than returning
`false`. -/
theorem permission_checks_error_when_no_active_user (db : UsersDb)
    (id : Int) (h : ∀ u ∈ db.users, u.id = id → u.deletedAt ≠ none) :
    AuthenticationService.hasAdminPermissions db id =
      .error "No User Found" ∧
    AuthenticationService.hasEditorPermissions db id =
      .error "No User Found" ∧
    AuthenticationService.hasAuthorPermissions db id =
      .error "No User Found" := by
  have hf : db.users.find? (UserService.findOneByIdWhere id true) = none := by
    rw [List.find?_eq_none]
    intro u hu
    unfold UserService.findOneByIdWhere
    simp only [Bool.not_eq_true, Bool.and_eq_false_iff]
    by_cases hid : u.id = id
    · right
      simp [h u hu hid]
    · left
      simp [hid]
  unfold AuthenticationService.hasAdminPermissions
    AuthenticationService.hasEditorPermissions
    AuthenticationService.hasAuthorPermissions
    UserService.findOneById
  simp [hf]

/-- Witness for the amended C3 at a concrete database. -/
theorem permission_checks_error_when_no_active_user_witness :
    AuthenticationService.hasAdminPermissions deletedDb 1 =
      .error "No User Found" ∧
    AuthenticationService.hasEditorPermissions deletedDb 1 =
      .error "No User Found" ∧
    AuthenticationService.hasAuthorPermissions deletedDb 1 =
      .error "No User Found" :=
  permission_checks_error_when_no_active_user deletedDb 1 (by decide)

/-- C4: a login whose email matches no active user and a login whose email
matches but whose password fails verification throw the same
`Invalid Credentials` error; the two failure causes are not
distinguishable from the returned outcome. -/
theorem login_failure_modes_indistinguishable (db : UsersDb)
    (e1 p1 e2 p2 : String) (u : UserRow)
    (h1 : db.users.find? (UserService.loginWhere e1) = none)
    (h2 : db.users.find? (UserService.loginWhere e2) = some u)
    (h3 : AuthenticationService.verifyCredentials p2 u.password = false) :
    UserService.login db e1 p1 = .error "Invalid Credentials" ∧
    UserService.login db e2 p2 = .error "Invalid Credentials" ∧
    UserService.login db e1 p1 = UserService.login db e2 p2 := by
  unfold UserService.login
  simp [h1, h2, h3]

/-- Witness for C4 at a concrete database. -/
theorem login_failure_modes_indistinguishable_witness :
    UserService.login wDb "nobody@x.com" "pw" = .error "Invalid Credentials" ∧
    UserService.login wDb "a@x.com" "wrong" = .error "Invalid Credentials" ∧
    UserService.login wDb "nobody@x.com" "pw" =
      UserService.login wDb "a@x.com" "wrong" :=
  login_failure_modes_indistinguishable wDb "nobody@x.com" "pw"
    "a@x.com" "wrong" ⟨1, "f", "l", "a@x.com", "$2b$pw", some 3, 0, 0, none, none⟩
    (by decide) (by decide) (by decide)

/-- Counterexample to C5: an empty payload (`{}`, an object with no
fields) is truthy in JavaScript, so `update` accepts it, executes a bare
`"updatedAt"` bump, and succeeds — the row is modified and no
`Invalid Update Payload Provided` error is thrown. -/
theorem update_accepts_empty_payload :
    UserService.update wDb 5 1 (some []) =
      .ok (⟨defaultRoles,
        [⟨1, "f", "l", "a@x.com", "$2b$pw", some 3, 0, 5, none, none⟩,
         ⟨2, "g", "m", "b@x.com", "$2b$pw", some 1, 0, 0, none, none⟩]⟩,
       "UPDATE users SET \"updatedAt\" = CURRENT_TIMESTAMP WHERE id = $1") ∧
    UserService.update wDb 5 1 (some []) ≠
      .error "Invalid Update Payload Provided" ∧
    ([⟨1, "f", "l", "a@x.com", "$2b$pw", some 3, 0, 5, none, none⟩,
      ⟨2, "g", "m", "b@x.com", "$2b$pw", some 1, 0, 0, none, none⟩] :
        List UserRow) ≠ wDb.users := by
  decide

/-- C5 amended: `update` rejects only an absent (falsy) payload with
`Invalid Update Payload Provided`, leaving the table unchanged; an empty
payload object is accepted by all three repositories and executes a bare
`"updatedAt"` bump on the matched row, returning success. -/
theorem update_absent_rejected_empty_bumps (udb : UsersDb)
    (cdb : List CategoryRow) (pdb : PostsDb) (now id : Int)
    (hu : udb.users.countP (fun u => u.id == id) ≠ 0)
    (hc : cdb.countP (fun c => c.id == id) ≠ 0)
    (hp : pdb.posts.countP (fun p => p.id == id) ≠ 0) :
    UserService.update udb now id none =
      .error "Invalid Update Payload Provided" ∧
    CategoryService.update cdb now id none =
      .error "Invalid Update Payload Provided" ∧
    PostService.update pdb now id none =
      .error "Invalid Update Payload Provided" ∧
    UserService.update udb now id (some []) =
      .ok ({ udb with users := udb.users.map (fun u =>
               if u.id == id then { u with updatedAt := now } else u) },
           "UPDATE users SET \"updatedAt\" = CURRENT_TIMESTAMP WHERE id = $1") ∧
    CategoryService.update cdb now id (some []) =
      .ok (cdb.map (fun c =>
             if c.id == id then { c with updatedAt := now } else c),
           "UPDATE categories SET \"updatedAt\" = CURRENT_TIMESTAMP WHERE id = $1") ∧
    PostService.update pdb now id (some []) =
      .ok ({ pdb with posts := pdb.posts.map (fun p =>
               if p.id == id then { p with updatedAt := now } else p) },
           "UPDATE posts SET \"updatedAt\" = CURRENT_TIMESTAMP WHERE id = $1") := by
  refine ⟨rfl, rfl, rfl, ?_, ?_, ?_⟩
  · simp only [UserService.update]
    rw [if_neg (by simpa using hu)]
    rfl
  · simp only [CategoryService.update]
    rw [if_neg (by simpa using hc)]
    rfl
  · simp only [PostService.update]
    rw [if_neg (by simpa using hp)]
    rfl

/-- Witness for the amended C5 at concrete databases. -/
theorem update_absent_rejected_empty_bumps_witness :
    UserService.update wDb 5 1 none =
      .error "Invalid Update Payload Provided" ∧
    CategoryService.update [⟨1, "Alpha", none, 0, 0, none⟩] 5 1 none =
      .error "Invalid Update Payload Provided" ∧
    PostService.update
      ⟨[⟨1, some 1, "T", "d", "c", some 1, "t", "default", true, 0, 0, none⟩],
       [], []⟩ 5 1 none = .error "Invalid Update Payload Provided" ∧
    UserService.update wDb 5 1 (some []) =
      .ok ({ wDb with users := wDb.users.map (fun u =>
               if u.id == 1 then { u with updatedAt := 5 } else u) },
           "UPDATE users SET \"updatedAt\" = CURRENT_TIMESTAMP WHERE id = $1") ∧
    CategoryService.update [⟨1, "Alpha", none, 0, 0, none⟩] 5 1 (some []) =
      .ok ([⟨1, "Alpha", none, 0, 0, none⟩].map (fun c =>
             if c.id == 1 then { c with updatedAt := 5 } else c),
           "UPDATE categories SET \"updatedAt\" = CURRENT_TIMESTAMP WHERE id = $1") ∧
    PostService.update
      ⟨[⟨1, some 1, "T", "d", "c", some 1, "t", "default", true, 0, 0, none⟩],
       [], []⟩ 5 1 (some []) =
      .ok ({ posts := [⟨1, some 1, "T", "d", "c", some 1, "t", "default",
               true, 0, 0, none⟩].map (fun p =>
                 if p.id == 1 then { p with updatedAt := 5 } else p),
             categories := [], users := [] },
           "UPDATE posts SET \"updatedAt\" = CURRENT_TIMESTAMP WHERE id = $1") :=
  update_absent_rejected_empty_bumps wDb [⟨1, "Alpha", none, 0, 0, none⟩]
    ⟨[⟨1, some 1, "T", "d", "c", some 1, "t", "default", true, 0, 0, none⟩],
     [], []⟩ 5 1 (by decide) (by decide) (by decide)

/-- Counterexample to C6: a payload whose field name is not a column of
the `users` table is not rejected; the unknown name is interpolated
verbatim into the UPDATE statement's text. -/
theorem update_interpolates_unknown_field_name :
    UserService.updateQuery
        [("notacolumn; DROP TABLE users; --", SqlValue.str "x")] =
      "UPDATE users SET \"updatedAt\" = CURRENT_TIMESTAMP, notacolumn; DROP TABLE users; -- = $1 WHERE id = $2" ∧
    UserService.update wDb 5 1
        (some [("notacolumn; DROP TABLE users; --", SqlValue.str "x")]) ≠
      .error "Invalid Update Payload Provided" := by
  decide

/-- Unfolding equation for a one-key SET clause (unquoted form). -/
theorem setClause_singleton_false (k : String) :
    setClause false [k] = ", " ++ k ++ " = $" ++ "1" :=
  @Eq.trans String (setClause false [k]) (setClauseFragment false 0 k)
    (", " ++ k ++ " = $" ++ "1") rfl rfl

/-- Unfolding equation for a one-key SET clause (quoted form). -/
theorem setClause_singleton_true (k : String) :
    setClause true [k] = ", \"" ++ k ++ "\" = $" ++ "1" :=
  @Eq.trans String (setClause true [k]) (setClauseFragment true 0 k)
    (", \"" ++ k ++ "\" = $" ++ "1") rfl rfl

/-- C6 amended: the `update` functions build the SET clause from exactly
the keys present in the payload, always appending the `"updatedAt"` bump;
arbitrary (including unknown) field names are interpolated directly into
the query text — unquoted for users, between double quotes for categories
and posts — and no payload is rejected for containing an unknown field
name. -/
theorem update_set_clause_interpolates_every_key (k : String) (v : SqlValue) :
    UserService.updateQuery [(k, v)] =
      "UPDATE users SET \"updatedAt\" = CURRENT_TIMESTAMP" ++
        (", " ++ k ++ " = $1") ++ " WHERE id = $2" ∧
    CategoryService.updateQuery [(k, v)] =
      "UPDATE categories SET \"updatedAt\" = CURRENT_TIMESTAMP" ++
        (", \"" ++ k ++ "\" = $1") ++ " WHERE id = $2" ∧
    PostService.updateQuery [(k, v)] =
      "UPDATE posts SET \"updatedAt\" = CURRENT_TIMESTAMP" ++
        (", \"" ++ k ++ "\" = $1") ++ " WHERE id = $2" ∧
    (∀ (db : UsersDb) (now id : Int),
      UserService.update db now id (some [(k, v)]) ≠
        .error "Invalid Update Payload Provided") ∧
    (∀ (db : List CategoryRow) (now id : Int),
      CategoryService.update db now id (some [(k, v)]) ≠
        .error "Invalid Update Payload Provided") ∧
    (∀ (db : PostsDb) (now id : Int),
      PostService.update db now id (some [(k, v)]) ≠
        .error "Invalid Update Payload Provided") := by
  refine ⟨?_, ?_, ?_, ?_, ?_, ?_⟩
  · rw [show UserService.updateQuery [(k, v)] =
      "UPDATE users SET \"updatedAt\" = CURRENT_TIMESTAMP" ++
        setClause false [k] ++ (" WHERE id = $" ++ toString 2) from rfl,
      setClause_singleton_false k,
      String.append_assoc (", " ++ k) " = $" "1"]
    rfl
  · rw [show CategoryService.updateQuery [(k, v)] =
      "UPDATE categories SET \"updatedAt\" = CURRENT_TIMESTAMP" ++
        setClause true [k] ++ (" WHERE id = $" ++ toString 2) from rfl,
      setClause_singleton_true k,
      String.append_assoc (", \"" ++ k) "\" = $" "1"]
    rfl
  · rw [show PostService.updateQuery [(k, v)] =
      "UPDATE posts SET \"updatedAt\" = CURRENT_TIMESTAMP" ++
        setClause true [k] ++ (" WHERE id = $" ++ toString 2) from rfl,
      setClause_singleton_true k,
      String.append_assoc (", \"" ++ k) "\" = $" "1"]
    rfl
  · intro db now id
    simp only [UserService.update]
    split
    · simp
    · simp
  · intro db now id
    simp only [CategoryService.update]
    split
    · simp
    · simp
  · intro db now id
    simp only [PostService.update]
    split
    · simp
    · simp

/-- C9: for each of the three repositories `softDelete(id)` is exactly
`update(id, { deletedAt: now })` followed by `return true`: on a matching
row it succeeds, setting `deletedAt` to the current instant alongside the
automatic `updatedAt` bump and touching no other field.  (The user
service's `softDelete` is modelled from the spec; see its definition.) -/
theorem softDelete_equiv_update_deletedAt (udb : UsersDb)
    (cdb : List CategoryRow) (pdb : PostsDb) (now id : Int)
    (hu : udb.users.countP (fun u => u.id == id) ≠ 0)
    (hc : cdb.countP (fun c => c.id == id) ≠ 0)
    (hp : pdb.posts.countP (fun p => p.id == id) ≠ 0) :
    (UserService.softDelete udb now id =
      match UserService.update udb now id
          (some [("deletedAt", SqlValue.time now)]) with
      | .error e => .error e
      | .ok r => .ok (r.1, true)) ∧
    (CategoryService.softDelete cdb now id =
      match CategoryService.update cdb now id
          (some [("deletedAt", SqlValue.time now)]) with
      | .error e => .error e
      | .ok r => .ok (r.1, true)) ∧
    (PostService.softDelete pdb now id =
      match PostService.update pdb now id
          (some [("deletedAt", SqlValue.time now)]) with
      | .error e => .error e
      | .ok r => .ok (r.1, true)) ∧
    UserService.softDelete udb now id =
      .ok ({ udb with users := udb.users.map (fun u =>
               if u.id == id then
                 { u with updatedAt := now, deletedAt := some now }
               else u) }, true) ∧
    CategoryService.softDelete cdb now id =
      .ok (cdb.map (fun c =>
             if c.id == id then
               { c with updatedAt := now, deletedAt := some now }
             else c), true) ∧
    PostService.softDelete pdb now id =
      .ok ({ pdb with posts := pdb.posts.map (fun p =>
               if p.id == id then
                 { p with updatedAt := now, deletedAt := some now }
               else p) }, true) := by
  refine ⟨rfl, rfl, rfl, ?_, ?_, ?_⟩
  · simp only [UserService.softDelete, UserService.update]
    rw [if_neg (by simpa using hu)]
    rfl
  · simp only [CategoryService.softDelete, CategoryService.update]
    rw [if_neg (by simpa using hc)]
    rfl
  · simp only [PostService.softDelete, PostService.update]
    rw [if_neg (by simpa using hp)]
    rfl

/-- Witness for C9 at concrete databases. -/
theorem softDelete_equiv_update_deletedAt_witness :
    UserService.softDelete wDb 9 1 =
      .ok ({ wDb with users := wDb.users.map (fun u =>
               if u.id == 1 then
                 { u with updatedAt := 9, deletedAt := some 9 }
               else u) }, true) ∧
    CategoryService.softDelete [⟨1, "Alpha", none, 0, 0, none⟩] 9 1 =
      .ok ([⟨1, "Alpha", none, 0, 0, none⟩].map (fun c =>
             if c.id == 1 then
               { c with updatedAt := 9, deletedAt := some 9 }
             else c), true) ∧
    PostService.softDelete
      ⟨[⟨1, some 1, "T", "d", "c", some 1, "t", "default", true, 0, 0, none⟩],
       [], []⟩ 9 1 =
      .ok ({ posts := [⟨1, some 1, "T", "d", "c", some 1, "t", "default",
               true, 0, 0, none⟩].map (fun p =>
                 if p.id == 1 then
                   { p with updatedAt := 9, deletedAt := some 9 }
                 else p),
             categories := [], users := [] }, true) := by
  have h := softDelete_equiv_update_deletedAt wDb
    [⟨1, "Alpha", none, 0, 0, none⟩]
    ⟨[⟨1, some 1, "T", "d", "c", some 1, "t", "default", true, 0, 0, none⟩],
     [], []⟩ 9 1 (by decide) (by decide) (by decide)
  exact ⟨h.2.2.2.1, h.2.2.2.2.1, h.2.2.2.2.2⟩

/-- C7: for category and post searches, `count` equals the number of rows
satisfying the search's WHERE predicate with no limit or offset applied,
while the returned item list is the same predicate's rows with order,
offset and limit applied (so with limit `n` and offset `m` it holds
exactly `min n (matching - m)` items, each drawn from a matching row). -/
theorem search_totalCount_ignores_pagination (cdb : List CategoryRow)
    (text : Option String) (pdb : PostsDb) (f : PostService.Filters)
    (par par2 : Bool) (n m n2 m2 : Int) (ob ob2 : String)
    (hn : n ≠ 0) (hn2 : n2 ≠ 0) :
    (CategoryService.search cdb text ⟨par, some n, m, ob⟩).2 =
      cdb.countP (CategoryService.searchWhere text par) ∧
    ((CategoryService.search cdb text ⟨par, some n, m, ob⟩).1).length =
      min n.toNat
        ((cdb.filter (CategoryService.searchWhere text par)).length -
          m.toNat) ∧
    (∀ v ∈ (CategoryService.search cdb text ⟨par, some n, m, ob⟩).1,
       ∃ c ∈ cdb, CategoryService.searchWhere text par c = true ∧
         v = CategoryService.toView c) ∧
    (PostService.search pdb f ⟨par2, some n2, m2, ob2⟩).2 =
      pdb.posts.countP (PostService.searchWhere f par2) ∧
    ((PostService.search pdb f ⟨par2, some n2, m2, ob2⟩).1).length =
      min n2.toNat
        ((pdb.posts.filter (PostService.searchWhere f par2)).length -
          m2.toNat) ∧
    (∀ v ∈ (PostService.search pdb f ⟨par2, some n2, m2, ob2⟩).1,
       ∃ p ∈ pdb.posts, PostService.searchWhere f par2 p = true ∧
         v = PostService.toView pdb p) := by
  refine ⟨?_, ?_, ?_, ?_, ?_, ?_⟩
  · simp only [CategoryService.search]
    rw [List.countP_eq_length_filter]
  · simp only [CategoryService.search]
    rw [length_applyLimitOffset n m hn, length_orderRows, List.length_map]
  · intro v hv
    simp only [CategoryService.search] at hv
    have h1 := mem_applyLimitOffset (some n) m v _ hv
    rw [mem_orderRows, List.mem_map] at h1
    obtain ⟨c, hc1, hc2⟩ := h1
    rw [List.mem_filter] at hc1
    exact ⟨c, hc1.1, hc1.2, hc2.symm⟩
  · simp only [PostService.search]
    rw [List.countP_eq_length_filter]
  · simp only [PostService.search]
    rw [length_applyLimitOffset n2 m2 hn2, length_orderRows, List.length_map]
  · intro v hv
    simp only [PostService.search] at hv
    have h1 := mem_applyLimitOffset (some n2) m2 v _ hv
    rw [mem_orderRows, List.mem_map] at h1
    obtain ⟨p, hp1, hp2⟩ := h1
    rw [List.mem_filter] at hp1
    exact ⟨p, hp1.1, hp1.2, hp2.symm⟩

/-- Example category table: five active rows and one soft-deleted row. -/
def cat6Db : List CategoryRow :=
  [⟨1, "Alpha", some "a", 0, 0, none⟩, ⟨2, "Beta", none, 0, 0, none⟩,
   ⟨3, "Gamma", none, 0, 0, some 9⟩, ⟨4, "Delta", none, 0, 0, none⟩,
   ⟨5, "Epsilon", none, 0, 0, none⟩, ⟨6, "Zeta", none, 0, 0, none⟩]

/-- Example post table: five active rows and one soft-deleted row. -/
def posts6Db : PostsDb :=
  ⟨[⟨1, some 1, "T1", "d", "c", some 1, "s1", "default", true, 0, 0, none⟩,
    ⟨2, some 1, "T2", "d", "c", some 1, "s2", "default", false, 0, 0, none⟩,
    ⟨3, none, "T3", "d", "c", none, "s3", "default", true, 0, 0, some 9⟩,
    ⟨4, none, "T4", "d", "c", none, "s4", "default", true, 0, 0, none⟩,
    ⟨5, none, "T5", "d", "c", none, "s5", "other", false, 0, 0, none⟩,
    ⟨6, none, "T6", "d", "c", none, "s6", "default", true, 0, 0, none⟩],
   cat6Db, []⟩

/-- Witness for C7: `limit=2, offset=0` over five matching rows returns
exactly two items while `totalCount` stays 5, for both entities. -/
theorem search_totalCount_ignores_pagination_witness :
    (CategoryService.search cat6Db none ⟨true, some 2, 0, "id"⟩).2 = 5 ∧
    ((CategoryService.search cat6Db none ⟨true, some 2, 0, "id"⟩).1).length = 2 ∧
    (PostService.search posts6Db ⟨none, none, none, false, none⟩
      ⟨true, some 2, 0, "id"⟩).2 = 5 ∧
    ((PostService.search posts6Db ⟨none, none, none, false, none⟩
      ⟨true, some 2, 0, "id"⟩).1).length = 2 := by
  have h := search_totalCount_ignores_pagination cat6Db none posts6Db
    ⟨none, none, none, false, none⟩ true true 2 0 2 0 "id" "id"
    (by decide) (by decide)
  refine ⟨?_, ?_, ?_, ?_⟩
  · rw [h.1]; decide
  · rw [h.2.1]; decide
  · rw [h.2.2.2.1]; decide
  · rw [h.2.2.2.2.1]; decide

/-- C8: `register` stores the email lowercased (with the schema's default
role 4, fresh serial id, and timestamps) and immediately logs in,
returning a token whose decoded subject id is the new row's id; a
subsequent `login` with any case variant of the email and the same
password succeeds with the same subject id. -/
theorem register_normalizes_email_and_login_any_case (db : UsersDb)
    (now : Int) (email firstName lastName password variant : String)
    (hfresh : ∀ u ∈ db.users, u.email ≠ jsToLower email)
    (hvar : jsToLower variant = jsToLower email) :
    UserService.register db now email firstName lastName password =
      .ok ({ db with users := db.users ++
          [{ id := UserService.nextUserId db, firstName := firstName,
             lastName := lastName, email := jsToLower email,
             password := AuthenticationService.createHash password,
             role := some 4, createdAt := now, updatedAt := now,
             deletedAt := none, tokenBlacklistDate := none }] },
        ⟨UserService.nextUserId db⟩) ∧
    UserService.login
      { db with users := db.users ++
          [{ id := UserService.nextUserId db, firstName := firstName,
             lastName := lastName, email := jsToLower email,
             password := AuthenticationService.createHash password,
             role := some 4, createdAt := now, updatedAt := now,
             deletedAt := none, tokenBlacklistDate := none }] }
      variant password = .ok ⟨UserService.nextUserId db⟩ := by
  have hany : (db.users.any fun u => u.email == jsToLower email) = false := by
    rw [Bool.eq_false_iff]
    intro hcontra
    rw [List.any_eq_true] at hcontra
    obtain ⟨u, hu, he⟩ := hcontra
    exact hfresh u hu (by simpa using he)
  have hlogin : ∀ s : String, jsToLower s = jsToLower email →
      UserService.login
        { db with users := db.users ++
            [{ id := UserService.nextUserId db, firstName := firstName,
               lastName := lastName, email := jsToLower email,
               password := AuthenticationService.createHash password,
               role := some 4, createdAt := now, updatedAt := now,
               deletedAt := none, tokenBlacklistDate := none }] }
        s password = .ok ⟨UserService.nextUserId db⟩ := by
    intro s hs
    have hnone : db.users.find? (UserService.loginWhere s) = none := by
      rw [List.find?_eq_none]
      intro u hu
      unfold UserService.loginWhere
      simp only [Bool.and_eq_true, not_and]
      intro _
      rw [hs]
      simpa using hfresh u hu
    have hfind : List.find? (UserService.loginWhere s)
        (db.users ++
          [{ id := UserService.nextUserId db, firstName := firstName,
             lastName := lastName, email := jsToLower email,
             password := AuthenticationService.createHash password,
             role := some 4, createdAt := now, updatedAt := now,
             deletedAt := none, tokenBlacklistDate := none }]) =
        some { id := UserService.nextUserId db, firstName := firstName,
               lastName := lastName, email := jsToLower email,
               password := AuthenticationService.createHash password,
               role := some 4, createdAt := now, updatedAt := now,
               deletedAt := none, tokenBlacklistDate := none } := by
      rw [List.find?_append, hnone, Option.none_or]
      have hpred : UserService.loginWhere s
          { id := UserService.nextUserId db, firstName := firstName,
            lastName := lastName, email := jsToLower email,
            password := AuthenticationService.createHash password,
            role := some 4, createdAt := now, updatedAt := now,
            deletedAt := none, tokenBlacklistDate := none } = true := by
        unfold UserService.loginWhere
        simp [hs]
      simp [List.find?, hpred]
    unfold UserService.login
    rw [show ({ db with users := db.users ++
        [{ id := UserService.nextUserId db, firstName := firstName,
           lastName := lastName, email := jsToLower email,
           password := AuthenticationService.createHash password,
           role := some 4, createdAt := now, updatedAt := now,
           deletedAt := none, tokenBlacklistDate := none }] } :
        UsersDb).users = db.users ++
        [{ id := UserService.nextUserId db, firstName := firstName,
           lastName := lastName, email := jsToLower email,
           password := AuthenticationService.createHash password,
           role := some 4, createdAt := now, updatedAt := now,
           deletedAt := none, tokenBlacklistDate := none }] from rfl, hfind]
    simp [AuthenticationService.verifyCredentials,
      AuthenticationService.createToken]
  refine ⟨?_, hlogin variant hvar⟩
  unfold UserService.register
  rw [if_neg (by simp [hany])]
  rw [hlogin email rfl]

/-- Witness for C8 at the spec's own scenario: register
`{email: "A@X.com", password: "longenough1"}`, then log in as
`A@X.COM`. -/
theorem register_normalizes_email_and_login_any_case_witness :
    UserService.register ⟨defaultRoles, []⟩ 7 "A@X.com" "f" "l"
      "longenough1" =
      .ok (⟨defaultRoles,
        [⟨1, "f", "l", "a@x.com", "$2b$longenough1", some 4, 7, 7,
          none, none⟩]⟩, ⟨1⟩) ∧
    UserService.login
      ⟨defaultRoles,
       [⟨1, "f", "l", "a@x.com", "$2b$longenough1", some 4, 7, 7,
         none, none⟩]⟩ "A@X.COM" "longenough1" = .ok ⟨1⟩ := by
  have h := register_normalizes_email_and_login_any_case
    ⟨defaultRoles, []⟩ 7 "A@X.com" "f" "l" "longenough1" "A@X.COM"
    (by simp) (by decide)
  exact ⟨h.1.trans (by decide), h.2.trans (by decide)⟩

/-- Propositional reading of the post `findOneById` WHERE predicate when
the `published` argument is falsy: the row's `published` flag is not
consulted. -/
theorem postFindWhere_false_iff (id : Int) (par : Bool) (p : PostRow) :
    PostService.findOneByIdWhere id par false p = true ↔
      p.id = id ∧ (par = false ∨ p.deletedAt = none) := by
  unfold PostService.findOneByIdWhere
  cases par <;> simp

/-- Propositional reading of the post `findOneById` WHERE predicate when
the `published` argument is truthy: a `published = true` conjunct is
added. -/
theorem postFindWhere_true_iff (id : Int) (par : Bool) (p : PostRow) :
    PostService.findOneByIdWhere id par true p = true ↔
      p.id = id ∧ (par = false ∨ p.deletedAt = none) ∧
        p.published = true := by
  unfold PostService.findOneByIdWhere
  cases par <;> simp [and_assoc]

/-- Success of `PostService.findOneById` is exactly the existence of a row
satisfying its WHERE predicate. -/
theorem postFindOneById_isOk_iff (db : PostsDb) (id : Int)
    (par pub : Bool) :
    (PostService.findOneById db id par pub).isOk = true ↔
      ∃ p ∈ db.posts, PostService.findOneByIdWhere id par pub p = true := by
  unfold PostService.findOneById
  rcases h : db.posts.find? (PostService.findOneByIdWhere id par pub)
      with _ | p
  · simp only [h, Except.isOk]
    constructor
    · intro hh
      exact Bool.noConfusion hh
    · rintro ⟨p, hp, hpred⟩
      rw [List.find?_eq_none] at h
      exact absurd hpred (h p hp)
  · simp only [h, Except.isOk]
    constructor
    · intro _
      exact ⟨p, List.mem_of_find?_eq_some h, List.find?_some h⟩
    · intro _
      rfl

/-- Example post table with one published and one unpublished active
post. -/
def pubUnpubDb : PostsDb :=
  ⟨[⟨1, none, "P", "d", "c", none, "s1", "default", true, 0, 0, none⟩,
    ⟨2, none, "Q", "d", "c", none, "s2", "default", false, 0, 0, none⟩],
   [], []⟩

/-- C10: the `published` condition enters a post query only when the
`published` argument is truthy.  With `published = false` the condition is
omitted entirely — `findOneById` succeeds regardless of the row's
`published` flag and `search` returns published and unpublished rows
alike — while `published = true` adds a `published = true` conjunct; no
argument value selects only unpublished posts. -/
theorem published_condition_only_when_truthy :
    (∀ (db : PostsDb) (id : Int) (par : Bool),
      ((PostService.findOneById db id par false).isOk = true ↔
        ∃ p ∈ db.posts, p.id = id ∧ (par = false ∨ p.deletedAt = none))) ∧
    (∀ (db : PostsDb) (id : Int) (par : Bool),
      ((PostService.findOneById db id par true).isOk = true ↔
        ∃ p ∈ db.posts, p.id = id ∧ (par = false ∨ p.deletedAt = none) ∧
          p.published = true)) ∧
    (∀ (text tpl : Option String) (cat auth : Option Int) (par : Bool)
       (p : PostRow) (b1 b2 : Bool),
      PostService.searchWhere ⟨text, tpl, cat, false, auth⟩ par
          { p with published := b1 } =
        PostService.searchWhere ⟨text, tpl, cat, false, auth⟩ par
          { p with published := b2 }) ∧
    (∀ (text tpl : Option String) (cat auth : Option Int) (par : Bool)
       (p : PostRow),
      PostService.searchWhere ⟨text, tpl, cat, true, auth⟩ par p =
        (PostService.searchWhere ⟨text, tpl, cat, false, auth⟩ par p &&
          p.published)) ∧
    ((PostService.search pubUnpubDb ⟨none, none, none, false, none⟩
        {}).1.map PostView.published = [true, false]) ∧
    (∀ pub : Bool,
      (PostService.search pubUnpubDb ⟨none, none, none, pub, none⟩
        {}).1.map PostView.published ≠ [false]) := by
  refine ⟨?_, ?_, ?_, ?_, by decide, ?_⟩
  · intro db id par
    rw [postFindOneById_isOk_iff]
    exact exists_congr fun p => and_congr_right fun _ =>
      postFindWhere_false_iff id par p
  · intro db id par
    rw [postFindOneById_isOk_iff]
    exact exists_congr fun p => and_congr_right fun _ =>
      postFindWhere_true_iff id par p
  · intro text tpl cat auth par p b1 b2
    unfold PostService.searchWhere
    rfl
  · intro text tpl cat auth par p
    unfold PostService.searchWhere
    cases hp : p.published <;> simp
  · intro pub
    cases pub <;> decide
